import Mathlib

/-!
Verification of `recls_util_unix.cpp` from the recls utility layer of the
phobos repository.

The translation unit defines two functions:

* `file_exists` (lines 89-94): `return 0 == stat(f, &st) || errno != ENOENT;`
  The OS `stat` call is modelled as an oracle `statOf : String → StatOutcome`
  giving, for each path, either success or failure together with the errno
  code the failing call sets.  The C `||` is short-circuiting, so `errno` is
  read only when `stat` returned nonzero; we make the errno state explicit by
  threading the pre-call errno value and returning the post-call value.

* `count_dir_parts_a` (lines 96-99): delegates to `count_char_instances_a`
  with the platform path separator.  A pointer range `[begin, end)` of
  characters is modelled as a `List Char`.
-/

namespace Recls

/-- POSIX errno code for "no such file or directory". -/
def ENOENT : Nat := 2

/-- POSIX errno code for "permission denied". -/
def EACCES : Nat := 13

/-- POSIX errno code for "not a directory". -/
def ENOTDIR : Nat := 20

/-- Outcome of a call to the POSIX `stat` function on one path: success
(return value 0), or failure (nonzero return) carrying the errno code the
call sets. -/
inductive StatOutcome where
  | ok : StatOutcome
  | err : Nat → StatOutcome
deriving DecidableEq, Repr

/-- Embedding of `file_exists` (recls_util_unix.cpp lines 89-94):
`return 0 == stat(f, &st) || errno != ENOENT;`.
`statOf` is the OS oracle giving the outcome of `stat` on each path and
`errno0` is the value of `errno` before the call.  The result pairs the
returned boolean with the value of `errno` after the call: on success the
short-circuit of `||` leaves `errno` unread and unchanged; on failure
`errno` holds the code set by the failing `stat` and is compared with
`ENOENT`. -/
def file_exists (statOf : String → StatOutcome) (f : String) (errno0 : Nat) :
    Bool × Nat :=
  match statOf f with
  | StatOutcome.ok => (true, errno0)
  | StatOutcome.err e => (decide (e ≠ ENOENT), e)

/-- Modelled from the spec: `count_char_instances_a` is called by
`count_dir_parts_a` but its definition is not part of the supplied source;
per the spec, the operation "counts occurrences of the platform separator
within a substring".  It scans the range `[begin, end)` once, adding one for
each character equal to `ch`. -/
def count_char_instances_a (range : List Char) (ch : Char) : Nat :=
  match range with
  | [] => 0
  | c :: rest => (if c = ch then 1 else 0) + count_char_instances_a rest ch

/-- Modelled from the spec: `unixstl filesystem_traits<char>::path_name_separator`
comes from the external UNIXSTL library, not part of the supplied source; on
the Unix platform of this translation unit it is the forward slash. -/
def path_name_separator : Char := '/'

/-- Embedding of `count_dir_parts_a` (recls_util_unix.cpp lines 96-99):
counts the occurrences of the platform path separator in the character
range `[begin, end)`. -/
def count_dir_parts_a (range : List Char) : Nat :=
  count_char_instances_a range path_name_separator

/-- The scanning loop of `count_char_instances_a` computes the number of
occurrences of `ch` in the range. -/
theorem count_char_instances_a_eq_count (range : List Char) (ch : Char) :
    count_char_instances_a range ch = range.count ch := by
  induction range with
  | nil => rfl
  | cons c rest ih =>
      by_cases h : c = ch <;>
        simp [count_char_instances_a, List.count_cons, ih, h, Nat.add_comm]

/-- C1: `file_exists` returns true iff `stat` succeeds or fails with an errno
other than `ENOENT`; equivalently, it returns false exactly when `stat` fails
with `ENOENT`. -/
theorem file_exists_iff_stat (statOf : String → StatOutcome) (f : String)
    (errno0 : Nat) :
    ((file_exists statOf f errno0).fst = true ↔
      statOf f = StatOutcome.ok ∨
        ∃ e, statOf f = StatOutcome.err e ∧ e ≠ ENOENT) ∧
    ((file_exists statOf f errno0).fst = false ↔
      statOf f = StatOutcome.err ENOENT) := by
  cases h : statOf f <;> simp [file_exists, h]

/-- C2: on a character range containing exactly `k` occurrences of the
platform path separator, `count_dir_parts_a` returns exactly `k`. -/
theorem count_dir_parts_a_exact (range : List Char) (k : Nat)
    (h : range.count path_name_separator = k) :
    count_dir_parts_a range = k := by
  rw [count_dir_parts_a, count_char_instances_a_eq_count, h]

/-- Witness for C2 at the concrete range "a/b/", which has two separators. -/
theorem count_dir_parts_a_exact_witness :
    List.count path_name_separator ['a', '/', 'b', '/'] = 2 ∧
      count_dir_parts_a ['a', '/', 'b', '/'] = 2 :=
  ⟨by decide, count_dir_parts_a_exact ['a', '/', 'b', '/'] 2 (by decide)⟩

/-- C3: the existence check never propagates an error: on any `stat` failure
with a non-`ENOENT` errno it returns the boolean true, and on an `ENOENT`
failure (a missing path) it returns false. -/
theorem file_exists_error_policy (statOf : String → StatOutcome) (f : String)
    (errno0 : Nat) :
    (∀ e, statOf f = StatOutcome.err e → e ≠ ENOENT →
      (file_exists statOf f errno0).fst = true) ∧
    (statOf f = StatOutcome.err ENOENT →
      (file_exists statOf f errno0).fst = false) := by
  constructor
  · intro e he hne
    simp [file_exists, he, hne]
  · intro he
    simp [file_exists, he]

/-- Witness for C3: a permission-denied failure yields true, a missing path
yields false. -/
theorem file_exists_error_policy_witness :
    (file_exists (fun _ => StatOutcome.err EACCES) "/root/secret" 0).fst
        = true ∧
      (file_exists (fun _ => StatOutcome.err ENOENT) "/definitely/missing"
        0).fst = false :=
  ⟨(file_exists_error_policy (fun _ => StatOutcome.err EACCES) "/root/secret"
      0).1 EACCES rfl (by decide),
   (file_exists_error_policy (fun _ => StatOutcome.err ENOENT)
      "/definitely/missing" 0).2 rfl⟩

/-- C4: `count_dir_parts_a` is deterministic: two runs on equal character
ranges return equal counts.  Its embedding is a pure function from the range
to a count, so it touches no other state and leaves the range unchanged. -/
theorem count_dir_parts_a_deterministic (r₁ r₂ : List Char) (h : r₁ = r₂) :
    count_dir_parts_a r₁ = count_dir_parts_a r₂ := by
  rw [h]

/-- Witness for C4 at two equal concrete ranges. -/
theorem count_dir_parts_a_deterministic_witness :
    count_dir_parts_a ['a', '/', 'b'] = count_dir_parts_a ['a', '/', 'b'] :=
  count_dir_parts_a_deterministic ['a', '/', 'b'] ['a', '/', 'b'] rfl

/-- C5: `file_exists` is total and boolean-valued: for every stat oracle,
path and prior errno, the run reaches a true-or-false result. -/
theorem file_exists_total (statOf : String → StatOutcome) (f : String)
    (errno0 : Nat) :
    (file_exists statOf f errno0).fst = true ∨
      (file_exists statOf f errno0).fst = false := by
  cases hb : (file_exists statOf f errno0).fst
  · exact Or.inr rfl
  · exact Or.inl rfl

/-- C6: `count_dir_parts_a` is additive over any split of the range: the
count over `[begin, mid)` plus the count over `[mid, end)` equals the count
over `[begin, end)`. -/
theorem count_dir_parts_a_split (l : List Char) (n : Nat) :
    count_dir_parts_a (l.take n) + count_dir_parts_a (l.drop n) =
      count_dir_parts_a l := by
  rw [count_dir_parts_a, count_dir_parts_a, count_dir_parts_a,
    count_char_instances_a_eq_count, count_char_instances_a_eq_count,
    count_char_instances_a_eq_count, ← List.count_append,
    List.take_append_drop]

/-- C7: when `stat` succeeds the short-circuited `||` never reads `errno`,
so `file_exists` returns true regardless of the errno value held before the
call. -/
theorem file_exists_success_ignores_errno (statOf : String → StatOutcome)
    (f : String) (h : statOf f = StatOutcome.ok) :
    ∀ errno0 : Nat, (file_exists statOf f errno0).fst = true := by
  intro errno0
  simp [file_exists, h]

/-- Witness for C7: stat succeeds while errno still holds `ENOENT` from an
earlier failed call, and the result is still true. -/
theorem file_exists_success_ignores_errno_witness :
    (file_exists (fun _ => StatOutcome.ok) "/tmp" ENOENT).fst = true :=
  file_exists_success_ignores_errno (fun _ => StatOutcome.ok) "/tmp" rfl
    ENOENT

/-- C8: in this Unix build the path separator is the forward slash only, and
prepending any other character (the backslash included) to a range leaves
the count of `count_dir_parts_a` unchanged: such characters contribute
zero. -/
theorem count_dir_parts_a_slash_only (l : List Char) (c : Char)
    (h : c ≠ '/') :
    path_name_separator = '/' ∧
      count_dir_parts_a (c :: l) = count_dir_parts_a l := by
  refine ⟨rfl, ?_⟩
  simp [count_dir_parts_a, count_char_instances_a, path_name_separator, h]

/-- Witness for C8: a backslash contributes zero to the count. -/
theorem count_dir_parts_a_slash_only_witness :
    path_name_separator = '/' ∧
      count_dir_parts_a ['\\', '/'] = count_dir_parts_a ['/'] :=
  count_dir_parts_a_slash_only ['/'] '\\' (by decide)

end Recls
